import Mathlib

/-!
Verification development for a repository of three Python command-line
scripts: a two-integer adder (`add.py`), an argument echo demo
(`python-demo.py`), and a Cisco device command simulator
(`run_command.py`).  The scripts are shallowly embedded below: pure
string-building code becomes Lean functions, the process-global random
source becomes an explicit environment of draw values (one natural
number per call to `random.randint` / `random.choice`), and the
effectful `main` functions become functions from parsed arguments and
environment to a result record (exit code, stdout lines, stderr lines,
saved file).
-/

namespace Scripts

/-- Model of Python `random.randint a b` (inclusive bounds): the draw
value `n` is reduced into the interval `[a, b]`.  As `n` ranges over all
naturals the result ranges over exactly `[a, b]`. -/
def randint (a b n : Nat) : Nat := a + n % (b - a + 1)

/-- Model of Python `random.choice l`: the draw value `n` selects an
index into `l`.  The fallback `d` is only used when `l` is empty, which
never happens at the call sites. -/
def choice {α : Type} (l : List α) (d : α) (n : Nat) : α :=
  l.getD (n % l.length) d

/-- Model of Python `sep.join(parts)` (also used for the multi-line
f-string template, which is the join of its lines by a newline). -/
def pyJoin (sep : String) : List String → String
  | [] => ""
  | [x] => x
  | x :: y :: xs => x ++ sep ++ pyJoin sep (y :: xs)

/-- The string `s` contains no newline character. -/
def noNL (s : String) : Bool := s.data.all (fun c => c != '\n')

/-- The string `s` begins with the string `p`. -/
def beginsWith (p s : String) : Bool := p.data.isPrefixOf s.data

theorem randint_le (a b n : Nat) (h : a ≤ b) : randint a b n ≤ b := by
  have : n % (b - a + 1) < b - a + 1 := Nat.mod_lt _ (by omega)
  unfold randint
  omega

theorem le_randint (a b n : Nat) : a ≤ randint a b n := Nat.le_add_right a _

theorem choice_mem {α : Type} (l : List α) (d : α) (n : Nat) (h : l ≠ []) :
    choice l d n ∈ l := by
  have hlen : 0 < l.length := List.length_pos.mpr h
  have hlt : n % l.length < l.length := Nat.mod_lt _ hlen
  rw [choice, List.getD_eq_getElem l d hlt]
  exact List.getElem_mem hlt

theorem beginsWith_iff (p s : String) :
    beginsWith p s = true ↔ p.data <+: s.data := by
  simp [beginsWith]

theorem beginsWith_append_true (p c x : String) (h : beginsWith p c = true) :
    beginsWith p (c ++ x) = true := by
  rw [beginsWith_iff] at h ⊢
  rw [String.data_append]
  exact h.trans (List.prefix_append _ _)

theorem beginsWith_append_false (p c x : String) (k : Nat)
    (hkc : k ≤ c.data.length) (hkp : k ≤ p.data.length)
    (hne : p.data.take k ≠ c.data.take k) :
    beginsWith p (c ++ x) = false := by
  by_contra hcon
  rw [Bool.not_eq_false, beginsWith_iff, List.prefix_iff_eq_take,
    String.data_append] at hcon
  apply hne
  have h1 : p.data.take k
      = ((c.data ++ x.data).take p.data.length).take k := by
    rw [← hcon]
  rw [List.take_take, Nat.min_eq_left hkp,
    List.take_append_of_le_length hkc] at h1
  exact h1

theorem noNL_append (a b : String) :
    noNL (a ++ b) = (noNL a && noNL b) := by
  simp [noNL, String.data_append, List.all_append]

theorem noNL_pyJoin (sep : String) :
    ∀ (l : List String), noNL sep = true → (∀ s ∈ l, noNL s = true) →
      noNL (pyJoin sep l) = true
  | [], _, _ => rfl
  | [x], _, h => h x (List.mem_singleton.mpr rfl)
  | x :: y :: xs, hsep, h => by
    have hx : noNL x = true := h x (List.mem_cons_self _ _)
    have hrest : noNL (pyJoin sep (y :: xs)) = true :=
      noNL_pyJoin sep (y :: xs) hsep
        (fun s hs => h s (List.mem_cons_of_mem _ hs))
    show noNL (x ++ sep ++ pyJoin sep (y :: xs)) = true
    rw [noNL_append, noNL_append, hx, hsep, hrest]
    rfl

/-- The ten decimal digit characters. -/
def digitChars : List Char := ['0', '1', '2', '3', '4', '5', '6', '7', '8', '9']

theorem digitChar_mem_digitChars (n : Nat) (h : n < 10) :
    Nat.digitChar n ∈ digitChars := by
  interval_cases n <;> decide

theorem toDigitsCore_mem (fuel : Nat) :
    ∀ (n : Nat) (acc : List Char), ∀ c ∈ Nat.toDigitsCore 10 fuel n acc,
      c ∈ acc ∨ c ∈ digitChars := by
  induction fuel with
  | zero => intro n acc c hc; exact Or.inl hc
  | succ f ih =>
    intro n acc c hc
    rw [Nat.toDigitsCore] at hc
    have hd : Nat.digitChar (n % 10) ∈ digitChars :=
      digitChar_mem_digitChars _ (Nat.mod_lt _ (by omega))
    by_cases h0 : n / 10 = 0
    · rw [if_pos h0] at hc
      rcases List.mem_cons.mp hc with rfl | hc
      · exact Or.inr hd
      · exact Or.inl hc
    · rw [if_neg h0] at hc
      rcases ih (n / 10) (Nat.digitChar (n % 10) :: acc) c hc with h | h
      · rcases List.mem_cons.mp h with rfl | h
        · exact Or.inr hd
        · exact Or.inl h
      · exact Or.inr h

theorem natRepr_mem_digitChars (n : Nat) :
    ∀ c ∈ (Nat.repr n).data, c ∈ digitChars := by
  intro c hc
  have hdata : (Nat.repr n).data = Nat.toDigitsCore 10 (n + 1) n [] := rfl
  rw [hdata] at hc
  rcases toDigitsCore_mem (n + 1) n [] c hc with h | h
  · exact absurd h (List.not_mem_nil c)
  · exact h

theorem natRepr_noNL (n : Nat) : noNL (Nat.repr n) = true := by
  rw [noNL, List.all_eq_true]
  intro c hc
  have hmem : c ∈ digitChars := natRepr_mem_digitChars n c hc
  have hall : ∀ c ∈ digitChars, (c != '\n') = true := by decide
  exact hall c hmem

/-! Embedding of `add.py`.  Its `main` parses two required arguments,
converts them with `int(...)`, and on the success path prints a JSON
object and exits 0.  For valid integer inputs the `int` conversions
succeed, so the success path is modelled as a total function of the two
integers. -/

/-- Result of the adder script on the success path (valid integers). -/
structure AddResult where
  success : Bool
  sum : Int
  exitCode : Nat
  deriving DecidableEq

/-- Embedding of `add.py` `main` on valid integer inputs.  The source
computes `result = int(args.num1) + int(args.num1)` (the first argument
twice), prints `{"success": true, "sum": result}` and exits 0. -/
def add_main (num1 num2 : Int) : AddResult :=
  { success := true, sum := num1 + num1, exitCode := 0 }

/-! Embedding of `python-demo.py`.  Its `main` parses one required
argument `--echo` and prints it.  Stdout is modelled as the list of
printed strings, one entry per `print` call. -/

/-- Embedding of `python-demo.py` `main`: print the `--echo` argument. -/
def echo_main (echoArg : String) : List String := [echoArg]

/-! Embedding of `run_command.py`.  All calls to the process-global
random source, the current wall-clock time read by `datetime.now()`,
and the success or failure of the optional file write are gathered into
one explicit environment record. -/

/-- Environment of one run of `run_command.py`: one draw value per call
to `random.randint` / `random.choice` (in source order inside
`generate_show_version`), the wall clock read by `datetime.now()`
(days since 1970-01-01 plus time of day), and the outcome of the
optional file write (`writeOk`, with `writeErr` the message of the
exception when the write fails). -/
structure Env where
  nowDays : Nat
  nowHour : Nat
  nowMinute : Nat
  nowSec : Nat
  rVMajor : Nat
  rVMinor : Nat
  rVPatch : Nat
  rVSuffix : Nat
  rWeeks : Nat
  rDays : Nat
  rHours : Nat
  rMinutes : Nat
  rSerial : Fin 11 → Nat
  rProc : Nat
  rIo : Nat
  rCompile : Nat
  rNvram : Nat
  rPhys : Nat
  rDisk : Nat
  rCfg : Nat
  writeOk : Bool
  writeErr : String

/-- A concrete environment (all draws zero), used to instantiate
universal theorems at one input. -/
def env0 : Env where
  nowDays := 0
  nowHour := 0
  nowMinute := 0
  nowSec := 0
  rVMajor := 0
  rVMinor := 0
  rVPatch := 0
  rVSuffix := 0
  rWeeks := 0
  rDays := 0
  rHours := 0
  rMinutes := 0
  rSerial := fun _ => 0
  rProc := 0
  rIo := 0
  rCompile := 0
  rNvram := 0
  rPhys := 0
  rDisk := 0
  rCfg := 0
  writeOk := false
  writeErr := "No space left on device"

/-- The 6-element suffix pool of `generate_random_version` (three empty
entries, then the letters a, b, c). -/
def suffix_choices : List String := ["", "", "", "a", "b", "c"]

/-- Embedding of `generate_random_version`: `major.minor.patch` with an
optional letter suffix, from `random.randint(15, 17)`,
`random.randint(1, 12)`, `random.randint(1, 9)` and a choice from
`suffix_choices`. -/
def generate_random_version (e : Env) : String :=
  let major := randint 15 17 e.rVMajor
  let minor := randint 1 12 e.rVMinor
  let patch := randint 1 9 e.rVPatch
  let suffix := choice suffix_choices "" e.rVSuffix
  Nat.repr major ++ "." ++ Nat.repr minor ++ "." ++ Nat.repr patch ++ suffix

/-- Embedding of `generate_random_uptime`: the tuple
`(weeks, days, hours, minutes)` from `random.randint(0, 52)`,
`random.randint(0, 6)`, `random.randint(0, 23)`,
`random.randint(0, 59)`. -/
def generate_random_uptime (e : Env) : Nat × Nat × Nat × Nat :=
  (randint 0 52 e.rWeeks, randint 0 6 e.rDays,
   randint 0 23 e.rHours, randint 0 59 e.rMinutes)

/-- The alphabet used by `generate_random_serial`. -/
def serial_alphabet : String := "ABCDEFGHIJKLMNOPQRSTUVWXYZ0123456789"

/-- Embedding of `generate_random_serial`: eleven independent choices
from `serial_alphabet`, joined. -/
def generate_random_serial (e : Env) : String :=
  String.mk (List.ofFn fun i : Fin 11 =>
    choice serial_alphabet.data 'A' (e.rSerial i))

/-- Embedding of `generate_random_memory`: processor and I/O memory
sizes, each a choice from a fixed candidate list. -/
def generate_random_memory (e : Env) : Nat × Nat :=
  (choice [1024000, 2048000, 4096000, 8192000] 0 e.rProc,
   choice [3075, 6147, 12291] 0 e.rIo)

/-! Model of the `datetime` pieces used by `run_command.py`: the
compile timestamp is `datetime.now() - timedelta(days=k)` formatted
with `strftime("%a %d-%b-%y %H:%M")`, and the save filename uses
`strftime("%Y%m%d_%H%M%S")`.  Dates are modelled as a count of days
since 1970-01-01, converted to the civil calendar with the standard
Gregorian algorithm. -/

/-- Zero-padded two-digit decimal rendering (strftime `%d`, `%y`, `%H`,
`%M`, `%S`, `%m`). -/
def pad2 (n : Nat) : String := (if n < 10 then "0" else "") ++ Nat.repr n

/-- Zero-padded four-digit decimal rendering (strftime `%Y`). -/
def pad4 (n : Nat) : String :=
  (if n < 10 then "000" else if n < 100 then "00"
   else if n < 1000 then "0" else "") ++ Nat.repr n

/-- Gregorian civil date `(year, month, day)` from a count of days
since 1970-01-01 (standard era-based conversion). -/
def civilFromDays (z : Nat) : Nat × Nat × Nat :=
  let w := z + 719468
  let era := w / 146097
  let doe := w % 146097
  let yoe := (doe - doe / 1460 + doe / 36524 - doe / 146096) / 365
  let y := yoe + era * 400
  let doy := doe - (365 * yoe + yoe / 4 - yoe / 100)
  let mp := (5 * doy + 2) / 153
  let d := doy - (153 * mp + 2) / 5 + 1
  let m := if mp < 10 then mp + 3 else mp - 9
  (if m ≤ 2 then y + 1 else y, m, d)

/-- Month abbreviations for strftime `%b` (month is 1-based). -/
def monthAbbrevs : List String :=
  ["Jan", "Feb", "Mar", "Apr", "May", "Jun",
   "Jul", "Aug", "Sep", "Oct", "Nov", "Dec"]

/-- Weekday abbreviations for strftime `%a`, indexed Monday = 0. -/
def weekdayAbbrevs : List String :=
  ["Mon", "Tue", "Wed", "Thu", "Fri", "Sat", "Sun"]

/-- strftime `%a` from a count of days since 1970-01-01 (which was a
Thursday, index 3 from Monday). -/
def strftimeWeekday (days : Nat) : String :=
  weekdayAbbrevs.getD ((days + 3) % 7) "Mon"

/-- strftime `%b` from a 1-based month number. -/
def strftimeMonth (m : Nat) : String := monthAbbrevs.getD (m - 1) "Jan"

/-- The compile timestamp of `generate_show_version`:
`datetime.now() - timedelta(days=random.randint(30, 1095))` formatted
with `strftime("%a %d-%b-%y %H:%M")`. -/
def compile_str (e : Env) : String :=
  let delta := randint 30 1095 e.rCompile
  let cd := e.nowDays - delta
  let ymd := civilFromDays cd
  strftimeWeekday cd ++ " " ++ pad2 ymd.2.2 ++ "-" ++ strftimeMonth ymd.2.1
    ++ "-" ++ pad2 (ymd.1 % 100) ++ " " ++ pad2 e.nowHour ++ ":"
    ++ pad2 e.nowMinute

/-- The uptime parts list built by `generate_show_version` (source
lines: append the weeks part if `weeks > 0`, the days part if
`days > 0`, then always the hours and minutes parts, each with an `s`
added when the value is not 1). -/
def uptime_parts (w d h m : Nat) : List String :=
  let parts : List String := []
  let parts := if w > 0 then
    parts ++ [Nat.repr w ++ " week" ++ (if w ≠ 1 then "s" else "")]
    else parts
  let parts := if d > 0 then
    parts ++ [Nat.repr d ++ " day" ++ (if d ≠ 1 then "s" else "")]
    else parts
  let parts := parts ++ [Nat.repr h ++ " hour" ++ (if h ≠ 1 then "s" else "")]
  let parts := parts ++ [Nat.repr m ++ " minute" ++ (if m ≠ 1 then "s" else "")]
  parts

/-- The uptime string of `generate_show_version`:
`", ".join(uptime_parts)`. -/
def uptime_str (w d h m : Nat) : String := pyJoin ", " (uptime_parts w d h m)

/-- The candidate configuration register values of
`generate_show_version`. -/
def config_reg_choices : List String := ["0x2102", "0x2142", "0x2100"]

/-- The lines of the `show version` template, with every substituted
field computed from the environment exactly as in
`generate_show_version`.  The produced output is the join of these
lines by a newline. -/
def show_version_lines (e : Env) : List String :=
  let version := generate_random_version e
  let u := generate_random_uptime e
  let ustr := uptime_str u.1 u.2.1 u.2.2.1 u.2.2.2
  let serial := generate_random_serial e
  let mem := generate_random_memory e
  let nvram := choice [32768, 65536, 131072, 262144] 0 e.rNvram
  let physical_mem := choice [3984776, 7969552, 15939104] 0 e.rPhys
  let virtual_disk := choice [6139904, 12279808, 24559616] 0 e.rDisk
  let config_reg := choice config_reg_choices "" e.rCfg
  ["Cisco IOS XE Software, Version " ++ version,
   "Cisco IOS Software [Amsterdam], Virtual XE Software (X86_64_LINUX_IOSD-UNIVERSALK9-M), Version "
     ++ (version ++ ", RELEASE SOFTWARE (fc3)"),
   "Technical Support: http://www.cisco.com/techsupport",
   "Copyright (c) 1986-2021 by Cisco Systems, Inc.",
   "Compiled " ++ (compile_str e ++ " by mcpre"),
   "",
   "Cisco IOS-XE software, Copyright (c) 2005-2021 by cisco Systems, Inc.",
   "All rights reserved.  Certain components of Cisco IOS-XE software are",
   "licensed under the GNU General Public License (\"GPL\") Version 2.0.",
   "",
   "ROM: IOS-XE ROMMON",
   "BOOTLDR: Virtual XE ROM",
   "",
   "Router uptime is " ++ ustr,
   "Uptime for this control processor is " ++ ustr,
   "System returned to ROM by reload",
   "System image file is \"bootflash:packages.conf\"",
   "Last reload reason: reload",
   "",
   "This product contains cryptographic features and is subject to United",
   "States and local country laws governing import, export, transfer and",
   "use. Delivery of Cisco cryptographic products does not imply",
   "third-party authority to import, export, distribute or use encryption.",
   "",
   "cisco CSR1000V (VXE) processor (revision VXE) with "
     ++ (Nat.repr mem.1 ++ ("K/" ++ (Nat.repr mem.2 ++ "K bytes of memory."))),
   "Processor board ID " ++ serial,
   "Router operating mode: Autonomous",
   "4 Gigabit Ethernet interfaces",
   Nat.repr nvram ++ "K bytes of non-volatile configuration memory.",
   Nat.repr physical_mem ++ "K bytes of physical memory.",
   Nat.repr virtual_disk ++ "K bytes of virtual hard disk at bootflash:.",
   "",
   "Configuration register is " ++ config_reg]

/-- Embedding of `generate_show_version`: the multi-line f-string
template with all random fields substituted (equal to the join of its
lines by a newline). -/
def generate_show_version (e : Env) : String :=
  pyJoin "\n" (show_version_lines e)

/-- Embedding of the `MOCK_RESPONSES` dictionary: command string to
response generator.  The single registered generator is
`generate_show_version` (a callable in the source, so dispatch calls
it). -/
def MOCK_RESPONSES : List (String × (Env → String)) :=
  [("show version", generate_show_version)]

/-- Embedding of `execute_mock_command`: if the command is a key of
`MOCK_RESPONSES`, call the registered generator; otherwise return the
fixed Cisco-style error string. -/
def execute_mock_command (command : String) (e : Env) : String :=
  match MOCK_RESPONSES.lookup command with
  | some response_func => response_func e
  | none => "% Invalid input detected at \x27^\x27 marker."

/-- Parsed arguments of `run_command.py`: `-device_ip` (optional at the
parser level, `none` when absent), `-command` (with the parser default
"show version" already applied), and the two flags. -/
structure Args where
  device_ip : Option String
  command : String
  save : Bool
  listFlag : Bool

/-- Observable result of one run of `run_command.py` `main`: exit
status, the strings printed to stdout and stderr (one entry per
`print`), and the optionally written file (name and contents). -/
structure MainResult where
  exitCode : Nat
  stdout : List String
  stderr : List String
  savedFile : Option (String × String)

/-- The save-file timestamp:
`datetime.now().strftime("%Y%m%d_%H%M%S")`. -/
def timestamp_str (e : Env) : String :=
  let ymd := civilFromDays e.nowDays
  pad4 ymd.1 ++ pad2 ymd.2.1 ++ pad2 ymd.2.2 ++ "_" ++ pad2 e.nowHour
    ++ pad2 e.nowMinute ++ pad2 e.nowSec

/-- Model of Python `s.replace(" ", "_")` (single-character
replacement). -/
def replaceSpaces (s : String) : String :=
  String.mk (s.data.map fun c => if c = ' ' then '_' else c)

/-- Embedding of `run_command.py` `main` on parsed arguments.  The
`-list` branch prints a header and the registered command names and
exits 0; a missing (or empty) `-device_ip` triggers `parser.error`,
which prints a usage message to stderr and exits 2; otherwise the mock
command output is printed and, when `-save` is given, written to a
file, a failing write being caught and reported on stderr without
changing the exit status. -/
def run_command_main (args : Args) (e : Env) : MainResult :=
  if args.listFlag then
    { exitCode := 0,
      stdout := "Available commands:"
        :: MOCK_RESPONSES.map (fun p => "  - " ++ p.1),
      stderr := [],
      savedFile := none }
  else if args.device_ip.getD "" = "" then
    { exitCode := 2,
      stdout := [],
      stderr := ["usage: run_command.py [-h] [-device_ip DEVICE_IP] [-command COMMAND] [-save] [-list]",
                 "run_command.py: error: -device_ip is required (unless using -list)"],
      savedFile := none }
  else
    let output := execute_mock_command args.command e
    if args.save then
      let filename := args.device_ip.getD "" ++ "_"
        ++ replaceSpaces args.command ++ "_" ++ timestamp_str e ++ ".txt"
      if e.writeOk then
        { exitCode := 0,
          stdout := [output],
          stderr := ["\nOutput saved to " ++ filename],
          savedFile := some (filename, output) }
      else
        { exitCode := 0,
          stdout := [output],
          stderr := ["\nERROR: Failed to save file: " ++ e.writeErr],
          savedFile := none }
    else
      { exitCode := 0, stdout := [output], stderr := [], savedFile := none }

/-! Theorems about the embedded scripts. -/

/-- C1: the adder is claimed to print `success: true` and the sum of
the two given numbers and exit 0; the code instead adds the first
number to itself.  At the input of the script docstring
(`num1 = 10`, `num2 = 2`, documented output sum 12) the code produces
sum 20, so the code contradicts its own documentation. -/
theorem add_main_first_argument_twice :
    add_main 10 2 = { success := true, sum := 20, exitCode := 0 }
    ∧ (add_main 10 2).sum ≠ 10 + 2 := by
  refine ⟨rfl, ?_⟩
  decide

/-- C9: for every string value supplied to the echo script, exactly
that string is printed to standard output. -/
theorem echo_main_prints_argument (s : String) : echo_main s = [s] := rfl

/-- C3: `execute_mock_command` dispatches through the registry: a
command that is a key of `MOCK_RESPONSES` yields the string produced by
the registered generator, and any other command yields exactly the
fixed sentinel error string.  The function is total, so it never
raises. -/
theorem execute_mock_command_dispatch (command : String) (e : Env) :
    (∀ f, MOCK_RESPONSES.lookup command = some f →
      execute_mock_command command e = f e)
    ∧ (MOCK_RESPONSES.lookup command = none →
      execute_mock_command command e
        = "% Invalid input detected at \x27^\x27 marker.") := by
  constructor
  · intro f hf
    simp [execute_mock_command, hf]
  · intro hf
    simp [execute_mock_command, hf]

/-- Witness for C3: at the registered command the registered generator
decides the output, and at an unregistered command the sentinel is
returned. -/
theorem execute_mock_command_dispatch_witness :
    execute_mock_command "show version" env0 = generate_show_version env0
    ∧ execute_mock_command "show ip route" env0
      = "% Invalid input detected at \x27^\x27 marker." :=
  ⟨(execute_mock_command_dispatch "show version" env0).1
      generate_show_version rfl,
   (execute_mock_command_dispatch "show ip route" env0).2 rfl⟩

/-- C2 counterexample: with `-list` given, stdout is not the bare list
of registered command names: a header line `Available commands:` is
printed and each name is indented behind `  - `. -/
theorem run_command_list_not_bare_names :
    (run_command_main
      { device_ip := none, command := "show version",
        save := false, listFlag := true } env0).stdout
      ≠ MOCK_RESPONSES.map (fun p => p.1) := by
  decide

/-- C2 (amended): whenever `-list` is given, the script prints the
header line `Available commands:` followed by each registered command
name on its own line preceded by `  - `, and exits 0, regardless of the
other arguments. -/
theorem run_command_list_behavior (args : Args) (e : Env)
    (h : args.listFlag = true) :
    (run_command_main args e).stdout
      = "Available commands:" :: MOCK_RESPONSES.map (fun p => "  - " ++ p.1)
    ∧ (run_command_main args e).exitCode = 0 := by
  rw [run_command_main, if_pos h]
  exact ⟨rfl, rfl⟩

/-- Witness for the amended C2 at a concrete argument record that also
sets every other argument. -/
theorem run_command_list_behavior_witness :
    (run_command_main
      { device_ip := some "192.168.1.1", command := "show clock",
        save := true, listFlag := true } env0).stdout
      = "Available commands:" :: MOCK_RESPONSES.map (fun p => "  - " ++ p.1)
    ∧ (run_command_main
      { device_ip := some "192.168.1.1", command := "show clock",
        save := true, listFlag := true } env0).exitCode = 0 :=
  run_command_list_behavior _ env0 rfl

/-- C8: when `-device_ip` is absent and `-list` is not given, the
script exits with a non-zero status (the `parser.error` path, exit
code 2) and prints no command output. -/
theorem run_command_missing_device_ip (args : Args) (e : Env)
    (h1 : args.listFlag = false) (h2 : args.device_ip = none) :
    (run_command_main args e).exitCode ≠ 0
    ∧ (run_command_main args e).stdout = [] := by
  rw [run_command_main, if_neg (by simp [h1]), if_pos (by simp [h2])]
  exact ⟨by decide, rfl⟩

/-- Witness for C8 at a concrete argument record with `-device_ip`
absent. -/
theorem run_command_missing_device_ip_witness :
    (run_command_main
      { device_ip := none, command := "show version",
        save := false, listFlag := false } env0).exitCode ≠ 0
    ∧ (run_command_main
      { device_ip := none, command := "show version",
        save := false, listFlag := false } env0).stdout = [] :=
  run_command_missing_device_ip _ env0 rfl rfl

/-- C6: with `-save` given (on the normal command path), the command
output is printed exactly once to stdout and the exit status is 0; when
the write succeeds the saved file content equals exactly the printed
output, and when the write fails no file is recorded, the failure is
reported on stderr with the underlying message, and the exit status is
still 0. -/
theorem run_command_save (args : Args) (e : Env)
    (h1 : args.listFlag = false) (h2 : args.device_ip.getD "" ≠ "")
    (h3 : args.save = true) :
    (run_command_main args e).stdout = [execute_mock_command args.command e]
    ∧ (run_command_main args e).exitCode = 0
    ∧ (e.writeOk = true → ∃ fn, (run_command_main args e).savedFile
        = some (fn, execute_mock_command args.command e))
    ∧ (e.writeOk = false → (run_command_main args e).savedFile = none
        ∧ ("\nERROR: Failed to save file: " ++ e.writeErr)
          ∈ (run_command_main args e).stderr) := by
  rw [run_command_main, if_neg (by simp [h1]), if_neg h2, if_pos (by simp [h3])]
  cases hw : e.writeOk with
  | true =>
    rw [if_pos rfl]
    exact ⟨rfl, rfl, fun _ => ⟨_, rfl⟩, fun hc => by simp at hc⟩
  | false =>
    rw [if_neg (by simp)]
    exact ⟨rfl, rfl, fun hc => by simp at hc,
      fun _ => ⟨rfl, List.mem_singleton.mpr rfl⟩⟩

/-- Witness for C6 at a concrete argument record, in the environment
where the file write fails. -/
theorem run_command_save_witness :
    (run_command_main
      { device_ip := some "1.1.1.1", command := "show version",
        save := true, listFlag := false } env0).stdout
      = [execute_mock_command "show version" env0]
    ∧ (run_command_main
      { device_ip := some "1.1.1.1", command := "show version",
        save := true, listFlag := false } env0).exitCode = 0
    ∧ (env0.writeOk = true → ∃ fn,
        (run_command_main
          { device_ip := some "1.1.1.1", command := "show version",
            save := true, listFlag := false } env0).savedFile
          = some (fn, execute_mock_command "show version" env0))
    ∧ (env0.writeOk = false →
        (run_command_main
          { device_ip := some "1.1.1.1", command := "show version",
            save := true, listFlag := false } env0).savedFile = none
        ∧ ("\nERROR: Failed to save file: " ++ env0.writeErr)
          ∈ (run_command_main
            { device_ip := some "1.1.1.1", command := "show version",
              save := true, listFlag := false } env0).stderr) :=
  run_command_save _ env0 rfl (by decide) rfl

/-- C7: every produced version string is `major.minor.patch` followed
by a suffix, with `major` in `[15, 17]`, `minor` in `[1, 12]`, `patch`
in `[1, 9]`, and the suffix drawn from the 6-element pool
`suffix_choices`, which has exactly 3 empty entries; so the suffix is
always one of the empty string, `a`, `b`, `c`. -/
theorem generate_random_version_shape (e : Env) :
    ∃ major minor patch : Nat, ∃ suffix : String,
      generate_random_version e
        = Nat.repr major ++ "." ++ Nat.repr minor ++ "." ++ Nat.repr patch
          ++ suffix
      ∧ 15 ≤ major ∧ major ≤ 17
      ∧ 1 ≤ minor ∧ minor ≤ 12
      ∧ 1 ≤ patch ∧ patch ≤ 9
      ∧ suffix = choice suffix_choices "" e.rVSuffix
      ∧ suffix ∈ suffix_choices
      ∧ suffix ∈ ["", "a", "b", "c"]
      ∧ suffix_choices.length = 6
      ∧ suffix_choices.count "" = 3 := by
  refine ⟨randint 15 17 e.rVMajor, randint 1 12 e.rVMinor,
    randint 1 9 e.rVPatch, choice suffix_choices "" e.rVSuffix,
    rfl, le_randint _ _ _, randint_le _ _ _ (by omega),
    le_randint _ _ _, randint_le _ _ _ (by omega),
    le_randint _ _ _, randint_le _ _ _ (by omega),
    rfl, choice_mem _ _ _ (by decide), ?_, rfl, rfl⟩
  have hall : ∀ s ∈ suffix_choices, s ∈ ["", "a", "b", "c"] := by decide
  exact hall _ (choice_mem _ _ _ (by decide))

/-- C4: the uptime clause is the comma join of a parts list that omits
the weeks part exactly when weeks is 0 and the days part exactly when
days is 0, always ends with an hours part and a minutes part, uses the
singular noun exactly when the value is 1 and the plural noun
otherwise, and never contains the part `0 weeks` or `0 days`. -/
theorem uptime_format (e : Env) (w d h m : Nat)
    (hup : generate_random_uptime e = (w, d, h, m)) :
    uptime_parts w d h m
      = (if 0 < w then
          [Nat.repr w ++ " week" ++ (if w = 1 then "" else "s")] else [])
        ++ (if 0 < d then
          [Nat.repr d ++ " day" ++ (if d = 1 then "" else "s")] else [])
        ++ [Nat.repr h ++ " hour" ++ (if h = 1 then "" else "s"),
            Nat.repr m ++ " minute" ++ (if m = 1 then "" else "s")]
    ∧ (Nat.repr h ++ " hour" ++ (if h = 1 then "" else "s"))
        ∈ uptime_parts w d h m
    ∧ (Nat.repr m ++ " minute" ++ (if m = 1 then "" else "s"))
        ∈ uptime_parts w d h m
    ∧ "0 weeks" ∉ uptime_parts w d h m
    ∧ "0 days" ∉ uptime_parts w d h m
    ∧ uptime_str w d h m = pyJoin ", " (uptime_parts w d h m) := by
  have hw52 : w ≤ 52 := by
    have := congrArg (fun t => t.1) hup
    simp [generate_random_uptime] at this
    rw [← this]
    exact randint_le _ _ _ (by omega)
  have hd6 : d ≤ 6 := by
    have := congrArg (fun t => t.2.1) hup
    simp [generate_random_uptime] at this
    rw [← this]
    exact randint_le _ _ _ (by omega)
  have hh23 : h ≤ 23 := by
    have := congrArg (fun t => t.2.2.1) hup
    simp [generate_random_uptime] at this
    rw [← this]
    exact randint_le _ _ _ (by omega)
  have hm59 : m ≤ 59 := by
    have := congrArg (fun t => t.2.2.2) hup
    simp [generate_random_uptime] at this
    rw [← this]
    exact randint_le _ _ _ (by omega)
  have hite : ∀ k : Nat,
      (if k ≠ 1 then "s" else "") = (if k = 1 then "" else "s") := by
    intro k
    by_cases hk : k = 1 <;> simp [hk]
  have heq : uptime_parts w d h m
      = (if 0 < w then
          [Nat.repr w ++ " week" ++ (if w = 1 then "" else "s")] else [])
        ++ (if 0 < d then
          [Nat.repr d ++ " day" ++ (if d = 1 then "" else "s")] else [])
        ++ [Nat.repr h ++ " hour" ++ (if h = 1 then "" else "s"),
            Nat.repr m ++ " minute" ++ (if m = 1 then "" else "s")] := by
    by_cases hw : 0 < w <;> by_cases hd : 0 < d <;>
      simp [uptime_parts, hw, hd, hite]
  have hwk : ∀ k : Fin 53, 0 < k.val →
      (Nat.repr k.val ++ " week" ++ (if k.val = 1 then "" else "s"))
        ≠ "0 weeks" ∧
      (Nat.repr k.val ++ " week" ++ (if k.val = 1 then "" else "s"))
        ≠ "0 days" := by decide
  have hdy : ∀ k : Fin 7, 0 < k.val →
      (Nat.repr k.val ++ " day" ++ (if k.val = 1 then "" else "s"))
        ≠ "0 weeks" ∧
      (Nat.repr k.val ++ " day" ++ (if k.val = 1 then "" else "s"))
        ≠ "0 days" := by decide
  have hhr : ∀ k : Fin 24,
      (Nat.repr k.val ++ " hour" ++ (if k.val = 1 then "" else "s"))
        ≠ "0 weeks" ∧
      (Nat.repr k.val ++ " hour" ++ (if k.val = 1 then "" else "s"))
        ≠ "0 days" := by decide
  have hmn : ∀ k : Fin 60,
      (Nat.repr k.val ++ " minute" ++ (if k.val = 1 then "" else "s"))
        ≠ "0 weeks" ∧
      (Nat.repr k.val ++ " minute" ++ (if k.val = 1 then "" else "s"))
        ≠ "0 days" := by decide
  refine ⟨heq, ?_, ?_, ?_, ?_, rfl⟩
  · rw [heq]
    simp
  · rw [heq]
    simp
  · rw [heq]
    intro hmem
    rcases List.mem_append.mp hmem with hmem | hmem
    · rcases List.mem_append.mp hmem with hmem | hmem
      · by_cases hw : 0 < w
        · rw [if_pos hw] at hmem
          rw [List.mem_singleton] at hmem
          exact (hwk ⟨w, by omega⟩ hw).1 hmem.symm
        · rw [if_neg hw] at hmem
          exact List.not_mem_nil _ hmem
      · by_cases hd : 0 < d
        · rw [if_pos hd] at hmem
          rw [List.mem_singleton] at hmem
          exact (hdy ⟨d, by omega⟩ hd).1 hmem.symm
        · rw [if_neg hd] at hmem
          exact List.not_mem_nil _ hmem
    · rcases List.mem_cons.mp hmem with hmem | hmem
      · exact (hhr ⟨h, by omega⟩).1 hmem.symm
      · rw [List.mem_singleton] at hmem
        exact (hmn ⟨m, by omega⟩).1 hmem.symm
  · rw [heq]
    intro hmem
    rcases List.mem_append.mp hmem with hmem | hmem
    · rcases List.mem_append.mp hmem with hmem | hmem
      · by_cases hw : 0 < w
        · rw [if_pos hw] at hmem
          rw [List.mem_singleton] at hmem
          exact (hwk ⟨w, by omega⟩ hw).2 hmem.symm
        · rw [if_neg hw] at hmem
          exact List.not_mem_nil _ hmem
      · by_cases hd : 0 < d
        · rw [if_pos hd] at hmem
          rw [List.mem_singleton] at hmem
          exact (hdy ⟨d, by omega⟩ hd).2 hmem.symm
        · rw [if_neg hd] at hmem
          exact List.not_mem_nil _ hmem
    · rcases List.mem_cons.mp hmem with hmem | hmem
      · exact (hhr ⟨h, by omega⟩).2 hmem.symm
      · rw [List.mem_singleton] at hmem
        exact (hmn ⟨m, by omega⟩).2 hmem.symm

/-- Witness for C4: at the all-zero environment the draw is
`(0, 0, 0, 0)` and the parts list contains neither `0 weeks` nor
`0 days`. -/
theorem uptime_format_witness :
    "0 weeks" ∉ uptime_parts 0 0 0 0 ∧ "0 days" ∉ uptime_parts 0 0 0 0 :=
  ⟨(uptime_format env0 0 0 0 0 rfl).2.2.2.1,
   (uptime_format env0 0 0 0 0 rfl).2.2.2.2.1⟩

/-- C10: the two uptime lines of the `show version` output carry the
same uptime text: the generator draws the uptime once, formats it once,
and substitutes the same string into both template lines. -/
theorem show_version_same_uptime (e : Env) :
    ∃ u : String,
      ("Router uptime is " ++ u) ∈ show_version_lines e
      ∧ ("Uptime for this control processor is " ++ u)
        ∈ show_version_lines e := by
  refine ⟨uptime_str (generate_random_uptime e).1 (generate_random_uptime e).2.1
    (generate_random_uptime e).2.2.1 (generate_random_uptime e).2.2.2, ?_, ?_⟩ <;>
    simp [show_version_lines]

theorem getD_mem_or {α : Type} (l : List α) (i : Nat) (d : α) :
    l.getD i d ∈ l ∨ l.getD i d = d := by
  by_cases h : i < l.length
  · left
    rw [List.getD_eq_getElem l d h]
    exact List.getElem_mem h
  · right
    exact List.getD_eq_default _ _ (Nat.le_of_not_lt h)

theorem noNL_part (n : Nat) (u t : String) (hu : noNL u = true)
    (ht : noNL t = true) : noNL (Nat.repr n ++ u ++ t) = true := by
  rw [noNL_append, noNL_append, natRepr_noNL, hu, ht]
  rfl

theorem noNL_uptime_parts (w d h m : Nat) :
    ∀ s ∈ uptime_parts w d h m, noNL s = true := by
  intro s hs
  simp only [uptime_parts] at hs
  by_cases hw : w > 0 <;> by_cases hd : d > 0 <;>
    simp only [hw, hd, if_true, if_false, List.nil_append, List.mem_append,
      List.mem_singleton, ite_true, ite_false] at hs
  · rcases hs with ((rfl | rfl) | rfl) | rfl <;>
      exact noNL_part _ _ _ (by decide) (by split <;> decide)
  · rcases hs with (rfl | rfl) | rfl <;>
      exact noNL_part _ _ _ (by decide) (by split <;> decide)
  · rcases hs with (rfl | rfl) | rfl <;>
      exact noNL_part _ _ _ (by decide) (by split <;> decide)
  · rcases hs with rfl | rfl <;>
      exact noNL_part _ _ _ (by decide) (by split <;> decide)

theorem noNL_uptime_str (w d h m : Nat) : noNL (uptime_str w d h m) = true := by
  rw [uptime_str]
  exact noNL_pyJoin _ _ rfl (noNL_uptime_parts w d h m)

theorem noNL_version (e : Env) : noNL (generate_random_version e) = true := by
  have hs : noNL (choice suffix_choices "" e.rVSuffix) = true := by
    have hall : ∀ s ∈ suffix_choices, noNL s = true := by decide
    exact hall _ (choice_mem _ _ _ (by decide))
  simp only [generate_random_version, noNL_append, hs, natRepr_noNL,
    Bool.and_true, Bool.true_and]
  decide

theorem noNL_serial (e : Env) : noNL (generate_random_serial e) = true := by
  rw [noNL, List.all_eq_true]
  intro c hc
  have hdata : (generate_random_serial e).data
      = List.ofFn (fun i : Fin 11 => choice serial_alphabet.data 'A' (e.rSerial i)) :=
    rfl
  rw [hdata, List.mem_ofFn, Set.mem_range] at hc
  obtain ⟨i, hi⟩ := hc
  have hmem : choice serial_alphabet.data 'A' (e.rSerial i)
      ∈ serial_alphabet.data := choice_mem _ _ _ (by decide)
  have hall : ∀ c ∈ serial_alphabet.data, (c != '\n') = true := by decide
  rw [← hi]
  exact hall _ hmem

theorem noNL_pad2 (n : Nat) : noNL (pad2 n) = true := by
  rw [pad2, noNL_append, natRepr_noNL]
  by_cases h : n < 10
  · rw [if_pos h]
    rfl
  · rw [if_neg h]
    rfl

theorem noNL_strftimeWeekday (days : Nat) :
    noNL (strftimeWeekday days) = true := by
  rcases getD_mem_or weekdayAbbrevs ((days + 3) % 7) "Mon" with h | h
  · have hall : ∀ s ∈ weekdayAbbrevs, noNL s = true := by decide
    exact hall _ h
  · rw [strftimeWeekday, h]
    rfl

theorem noNL_strftimeMonth (m : Nat) : noNL (strftimeMonth m) = true := by
  rcases getD_mem_or monthAbbrevs (m - 1) "Jan" with h | h
  · have hall : ∀ s ∈ monthAbbrevs, noNL s = true := by decide
    exact hall _ h
  · rw [strftimeMonth, h]
    rfl

theorem noNL_compile_str (e : Env) : noNL (compile_str e) = true := by
  simp only [compile_str, noNL_append, noNL_pad2, noNL_strftimeWeekday,
    noNL_strftimeMonth, Bool.and_true, Bool.true_and]
  decide

/-- C5: the `show version` output is the newline join of its line list,
no line contains a newline (so the line list is exactly the lines of
the output), exactly one line begins with `Configuration register is`
(the filter over the lines is the single final line, whence the count
is 1), and the value on that line is the drawn configuration register,
one of the three fixed candidates. -/
theorem show_version_config_register (e : Env) :
    generate_show_version e = pyJoin "\n" (show_version_lines e)
    ∧ (show_version_lines e).all noNL = true
    ∧ (show_version_lines e).filter (beginsWith "Configuration register is")
        = ["Configuration register is " ++ choice config_reg_choices "" e.rCfg]
    ∧ (show_version_lines e).countP (beginsWith "Configuration register is") = 1
    ∧ choice config_reg_choices "" e.rCfg ∈ config_reg_choices := by
  have hu : noNL (uptime_str (generate_random_uptime e).1
      (generate_random_uptime e).2.1 (generate_random_uptime e).2.2.1
      (generate_random_uptime e).2.2.2) = true := noNL_uptime_str _ _ _ _
  have hcfg : noNL (choice config_reg_choices "" e.rCfg) = true := by
    have hc : ∀ s ∈ config_reg_choices, noNL s = true := by decide
    exact hc _ (choice_mem _ _ _ (by decide))
  have hall : (show_version_lines e).all noNL = true := by
    rw [List.all_eq_true]
    intro l hl
    simp only [show_version_lines, List.mem_cons, List.not_mem_nil,
      or_false] at hl
    rcases hl with rfl | rfl | rfl | rfl | rfl | rfl | rfl | rfl | rfl | rfl |
      rfl | rfl | rfl | rfl | rfl | rfl | rfl | rfl | rfl | rfl | rfl | rfl |
      rfl | rfl | rfl | rfl | rfl | rfl | rfl | rfl | rfl | rfl | rfl <;>
      first
        | decide
        | (simp only [noNL_append, natRepr_noNL, noNL_version,
            noNL_compile_str, noNL_serial, hu, hcfg, Bool.and_true,
            Bool.true_and]
           decide)
  have hb1 : ∀ s, beginsWith "Configuration register is"
      ("Cisco IOS XE Software, Version " ++ s) = false :=
    fun s => beginsWith_append_false _ _ _ 2 (by decide) (by decide) (by decide)
  have hb2 : ∀ s, beginsWith "Configuration register is"
      ("Cisco IOS Software [Amsterdam], Virtual XE Software (X86_64_LINUX_IOSD-UNIVERSALK9-M), Version "
        ++ s) = false :=
    fun s => beginsWith_append_false _ _ _ 2 (by decide) (by decide) (by decide)
  have hb5 : ∀ s, beginsWith "Configuration register is"
      ("Compiled " ++ s) = false :=
    fun s => beginsWith_append_false _ _ _ 3 (by decide) (by decide) (by decide)
  have hb14 : ∀ s, beginsWith "Configuration register is"
      ("Router uptime is " ++ s) = false :=
    fun s => beginsWith_append_false _ _ _ 1 (by decide) (by decide) (by decide)
  have hb15 : ∀ s, beginsWith "Configuration register is"
      ("Uptime for this control processor is " ++ s) = false :=
    fun s => beginsWith_append_false _ _ _ 1 (by decide) (by decide) (by decide)
  have hb25 : ∀ s, beginsWith "Configuration register is"
      ("cisco CSR1000V (VXE) processor (revision VXE) with " ++ s) = false :=
    fun s => beginsWith_append_false _ _ _ 1 (by decide) (by decide) (by decide)
  have hb26 : ∀ s, beginsWith "Configuration register is"
      ("Processor board ID " ++ s) = false :=
    fun s => beginsWith_append_false _ _ _ 1 (by decide) (by decide) (by decide)
  have hnv : ∀ v ∈ ([32768, 65536, 131072, 262144] : List Nat),
      beginsWith "Configuration register is"
        (Nat.repr v ++ "K bytes of non-volatile configuration memory.")
        = false := by decide
  have hph : ∀ v ∈ ([3984776, 7969552, 15939104] : List Nat),
      beginsWith "Configuration register is"
        (Nat.repr v ++ "K bytes of physical memory.") = false := by decide
  have hvd : ∀ v ∈ ([6139904, 12279808, 24559616] : List Nat),
      beginsWith "Configuration register is"
        (Nat.repr v ++ "K bytes of virtual hard disk at bootflash:.")
        = false := by decide
  have hb29 := hnv _ (choice_mem [32768, 65536, 131072, 262144] 0 e.rNvram
    (by decide))
  have hb30 := hph _ (choice_mem [3984776, 7969552, 15939104] 0 e.rPhys
    (by decide))
  have hb31 := hvd _ (choice_mem [6139904, 12279808, 24559616] 0 e.rDisk
    (by decide))
  have hb33 : ∀ s, beginsWith "Configuration register is"
      ("Configuration register is " ++ s) = true :=
    fun s => beginsWith_append_true _ _ _ (by decide)
  have hlit : beginsWith "Configuration register is"
        "Technical Support: http://www.cisco.com/techsupport" = false
      ∧ beginsWith "Configuration register is"
        "Copyright (c) 1986-2021 by Cisco Systems, Inc." = false
      ∧ beginsWith "Configuration register is" "" = false
      ∧ beginsWith "Configuration register is"
        "Cisco IOS-XE software, Copyright (c) 2005-2021 by cisco Systems, Inc." = false
      ∧ beginsWith "Configuration register is"
        "All rights reserved.  Certain components of Cisco IOS-XE software are" = false
      ∧ beginsWith "Configuration register is"
        "licensed under the GNU General Public License (\"GPL\") Version 2.0." = false
      ∧ beginsWith "Configuration register is" "ROM: IOS-XE ROMMON" = false
      ∧ beginsWith "Configuration register is" "BOOTLDR: Virtual XE ROM" = false
      ∧ beginsWith "Configuration register is"
        "System returned to ROM by reload" = false
      ∧ beginsWith "Configuration register is"
        "System image file is \"bootflash:packages.conf\"" = false
      ∧ beginsWith "Configuration register is" "Last reload reason: reload" = false
      ∧ beginsWith "Configuration register is"
        "This product contains cryptographic features and is subject to United" = false
      ∧ beginsWith "Configuration register is"
        "States and local country laws governing import, export, transfer and" = false
      ∧ beginsWith "Configuration register is"
        "use. Delivery of Cisco cryptographic products does not imply" = false
      ∧ beginsWith "Configuration register is"
        "third-party authority to import, export, distribute or use encryption." = false
      ∧ beginsWith "Configuration register is"
        "Router operating mode: Autonomous" = false
      ∧ beginsWith "Configuration register is"
        "4 Gigabit Ethernet interfaces" = false := by decide
  have hfil : (show_version_lines e).filter
      (beginsWith "Configuration register is")
      = ["Configuration register is " ++ choice config_reg_choices "" e.rCfg] := by
    simp [show_version_lines, List.filter_cons, List.filter_nil,
      hb1, hb2, hb5, hb14, hb15, hb25, hb26, hb29, hb30, hb31, hb33, hlit]
  refine ⟨rfl, hall, hfil, ?_, choice_mem _ _ _ (by decide)⟩
  rw [List.countP_eq_length_filter, hfil]
  rfl

end Scripts
